import Mathlib

/-!
Shallow embedding of the sailing-game WebSocket server (src/server.py) and
verification of the specification claims about it.

Conventions used throughout:
- Python floats are modelled as real numbers.
- JSON message payloads (section on the connection handler) use rational
  numbers for numeric literals so that the dispatch logic stays decidable;
  the simulation layer works with reals.
- Python dictionaries holding boat state are modelled as structures.
  Python reference semantics matter in exactly one place: after a snap step
  the boat position dictionary is the very same object as a sample position
  stored inside the recording (line 440 of server.py assigns the reference),
  and the later in-place update at lines 454-456 therefore writes through to
  the recording.  The type PosRef below makes that aliasing explicit.
-/

namespace Sail

/-- A 3-component vector, the model of the position and rotation dictionaries
with keys x, y, z. -/
structure Vec3 where
  x : ℝ
  y : ℝ
  z : ℝ

/-- One recorded movement sample (an element of the movements array of a
recording file): relative timestamp, position, rotation, and the optional
sailAngle and heelAngle keys. -/
structure Movement where
  timestamp : ℝ
  position : Vec3
  rotation : Vec3
  sailAngle : Option ℝ
  heelAngle : Option ℝ

/-! ## Linear (parametric) AI boats, server.py lines 253-285 and 470-496 -/

/-- State of a linear AI boat: the fields of the ai_boats entry created by
create_new_boat (lines 263-283) that the linear update step reads or writes.
The y coordinate of the position is carried along; the step never touches it. -/
structure LinearBoat where
  pos : Vec3
  direction_x : ℝ
  direction_z : ℝ
  speed : ℝ
  start_x : ℝ
  start_z : ℝ
  distance : ℝ
  max_distance : ℝ

/-- One 100 ms tick of update_ai_boats for a linear boat, server.py lines
470-496: move by direction times speed times 0.1, accumulate distance, and
reset to the start position with distance zero once the accumulated distance
reaches max_distance. -/
noncomputable def linearStep (b : LinearBoat) : LinearBoat :=
  let new_x := b.pos.x + b.direction_x * b.speed * 0.1
  let new_z := b.pos.z + b.direction_z * b.speed * 0.1
  let distance := b.distance + b.speed * 0.1
  if distance ≥ b.max_distance then
    { b with pos := ⟨b.start_x, b.pos.y, b.start_z⟩, distance := 0 }
  else
    { b with pos := ⟨new_x, b.pos.y, new_z⟩, distance := distance }

/-! ## Broadcast fanout, server.py lines 216-235

A client registry entry is modelled, for the purposes of the fanout, by its
client id together with whether the send on its websocket succeeds.  All the
send tasks are created before asyncio.gather awaits them, so every send is
attempted and the successful ones are delivered even when another one fails;
gather is called without return_exceptions, so the first failure is re-raised
to the caller of the broadcast.  The registry itself is passed through
unchanged: neither function touches connected_clients. -/

/-- Result of one broadcast call: the registry as the call leaves it, the ids
whose sends were completed successfully, and the outcome seen by the caller
(ok, or the id of the failing recipient whose send exception gather
re-raised). -/
structure BroadcastResult where
  registry : List (Nat × Bool)
  delivered : List Nat
  outcome : Except Nat Unit

/-- Model of broadcast_to_all, server.py lines 216-224. -/
def broadcast_to_all (registry : List (Nat × Bool)) : BroadcastResult :=
  { registry := registry
    delivered := (registry.filter (fun c => c.2)).map (fun c => c.1)
    outcome :=
      match registry.find? (fun c => !c.2) with
      | some c => Except.error c.1
      | none => Except.ok () }

/-- Model of broadcast_to_others, server.py lines 226-235: identical to
broadcast_to_all except that the sender is excluded from the targets. -/
def broadcast_to_others (registry : List (Nat × Bool)) (sender : Nat) :
    BroadcastResult :=
  { registry := registry
    delivered :=
      ((registry.filter (fun c => c.1 ≠ sender)).filter (fun c => c.2)).map
        (fun c => c.1)
    outcome :=
      match (registry.filter (fun c => c.1 ≠ sender)).find? (fun c => !c.2) with
      | some c => Except.error c.1
      | none => Except.ok () }

/-! ## Recorded AI boats, server.py lines 287-328 and 386-468 -/

/-- Reference held by the boat_data position field of a recorded boat: either
an owned vector (as right after create_recorded_boat, which copies the first
sample component by component, lines 304-308), or the very same object as the
position of sample i of the recording (after the assignment at line 440). -/
inductive PosRef where
  | own (v : Vec3)
  | sample (i : Nat)

/-- Dereference a position reference against the recording it may point into.
An out-of-range alias (which a real execution never produces) reads as the
origin. -/
def resolvePos (r : PosRef) (m : List Movement) : Vec3 :=
  match r with
  | PosRef.own v => v
  | PosRef.sample i =>
      match m.get? i with
      | some mv => mv.position
      | none => ⟨0, 0, 0⟩

/-- A position reference is valid for a recording of the given length when it
does not dangle. -/
def PosRef.validFor (r : PosRef) (n : Nat) : Bool :=
  match r with
  | PosRef.own _ => true
  | PosRef.sample i => i < n

/-- State of a recorded AI boat: the fields of the ai_boats entry created by
create_recorded_boat (lines 302-325).  The recording itself (the movements
list, shared by reference with recorded_paths) is passed to the step function
separately so that writes through the position alias stay visible. -/
structure RecordedBoat where
  posRef : PosRef
  rotation : Vec3
  sailAngle : ℝ
  heelAngle : Option ℝ
  name : String
  color : String
  speed : ℝ
  flag : String
  current_index : Nat
  loop : Bool

/-- The boat_data dictionary of a recorded AI boat as other code observes it,
with the position alias resolved. -/
def AiBoatData := Vec3 × Vec3 × ℝ × Option ℝ

/-- Observable boat_data of a recorded boat. -/
def boatDataOf (m : List Movement) (b : RecordedBoat) :
    Vec3 × Vec3 × ℝ × Option ℝ :=
  (resolvePos b.posRef m, b.rotation, b.sailAngle, b.heelAngle)

/-- Messages the server broadcasts about AI boats. -/
inductive ServerMsg where
  | boat_update (client_id : String) (data : Vec3 × Vec3 × ℝ × Option ℝ)
  | boat_disconnected (client_id : String)

/-- Replace the position of sample i of a recording: the effect of an
in-place write through an alias into the movements list. -/
def setSamplePos (m : List Movement) (i : Nat) (p : Vec3) : List Movement :=
  match m.get? i with
  | some mi => m.set i { mi with position := p }
  | none => m

/-- Model of create_recorded_boat, server.py lines 287-328: returns none when
the recording has no movements (line 292), otherwise the fresh boat state.
The random color and the uuid-based boat id are supplied by the caller; the
insertion into ai_boats is performed at the call sites of this model. -/
def create_recorded_boat (color : String) (movements : List Movement) :
    Option RecordedBoat :=
  match movements with
  | [] => none
  | first_movement :: _ =>
      some { posRef := PosRef.own first_movement.position
             rotation := first_movement.rotation
             sailAngle :=
               match first_movement.sailAngle with
               | some s => s
               | none => 0
             heelAngle := none
             name := "Recorded Pirate"
             color := color
             speed := 0
             flag := "pirate"
             current_index := 0
             loop := false }

/-- Interpolation part of one recorded-boat tick, server.py lines 404-468,
entered after the end-of-recording handling.  In the snap branch line 440
assigns the next sample position object to the boat position by reference; in
the move branch lines 454-456 update the referenced position object in place,
which writes through to the recording when the reference is an alias. -/
noncomputable def recordedAdvance (m : List Movement) (b : RecordedBoat) :
    List Movement × RecordedBoat :=
  let next_index0 := b.current_index + 1
  let next_index := if next_index0 ≥ m.length ∧ b.loop then 0 else next_index0
  if hn : next_index < m.length then
    let next_movement := m.get ⟨next_index, hn⟩
    let current_pos := resolvePos b.posRef m
    let next_pos := next_movement.position
    let dir_x := next_pos.x - current_pos.x
    let dir_y := next_pos.y - current_pos.y
    let dir_z := next_pos.z - current_pos.z
    let distance := Real.sqrt (dir_x ^ 2 + dir_y ^ 2 + dir_z ^ 2)
    let speed : ℝ := 5
    if distance < 0.5 ∨ speed * 0.1 ≥ distance then
      (m, { b with
              current_index := b.current_index + 1
              posRef := PosRef.sample next_index
              rotation := next_movement.rotation
              sailAngle :=
                match next_movement.sailAngle with
                | some s => s
                | none => b.sailAngle
              heelAngle :=
                match next_movement.heelAngle with
                | some h => some h
                | none => b.heelAngle })
    else
      let ndir_x := if distance > 0 then dir_x / distance else dir_x
      let ndir_y := if distance > 0 then dir_y / distance else dir_y
      let ndir_z := if distance > 0 then dir_z / distance else dir_z
      let newPos : Vec3 := ⟨current_pos.x + ndir_x * speed * 0.1,
                            current_pos.y + ndir_y * speed * 0.1,
                            current_pos.z + ndir_z * speed * 0.1⟩
      let m' :=
        match b.posRef with
        | PosRef.own _ => m
        | PosRef.sample i => setSamplePos m i newPos
      let posRef' :=
        match b.posRef with
        | PosRef.own _ => PosRef.own newPos
        | PosRef.sample i => PosRef.sample i
      (m', { b with
               posRef := posRef'
               rotation := next_movement.rotation
               sailAngle :=
                 match next_movement.sailAngle with
                 | some s => s
                 | none => b.sailAngle
               heelAngle :=
                 match next_movement.heelAngle with
                 | some h => some h
                 | none => b.heelAngle })
  else
    (m, b)

/-- One 100 ms tick of update_ai_boats for a recorded boat, server.py lines
386-468: at the last sample the boat either restarts (loop) or is deleted
from ai_boats (result none); otherwise it advances by interpolation. -/
noncomputable def recordedStep (m : List Movement) (b : RecordedBoat) :
    List Movement × Option RecordedBoat :=
  if b.current_index ≥ m.length - 1 then
    if b.loop then
      let r := recordedAdvance m { b with current_index := 0 }
      (r.1, some r.2)
    else
      (m, none)
  else
    let r := recordedAdvance m b
    (r.1, some r.2)

/-- One tick of update_ai_boats for a recorded boat together with the
broadcast it produces, lines 386-505: a surviving boat has its boat_update
broadcast to all clients (lines 499-505); a deleted boat is skipped by the
continue at line 402, so nothing at all is broadcast for it. -/
noncomputable def recordedTick (ai_id : String) (m : List Movement)
    (b : RecordedBoat) :
    List Movement × Option RecordedBoat × List ServerMsg :=
  match recordedStep m b with
  | (m', none) => (m', none, [])
  | (m', some b') =>
      (m', some b', [ServerMsg.boat_update ai_id (boatDataOf m' b')])

/-! ## Specification-side description of one interpolation step

Written from the wording of spec section 4.5 for the refinement claim about
the recorded step: it acts on the observable boat state (position resolved),
given the next sample. -/

/-- Observable state of a recorded boat. -/
structure ObsBoat where
  position : Vec3
  rotation : Vec3
  sailAngle : ℝ
  heelAngle : Option ℝ
  cursor : Nat

/-- Observable state of a recorded boat against its recording. -/
def observe (m : List Movement) (b : RecordedBoat) : ObsBoat :=
  { position := resolvePos b.posRef m
    rotation := b.rotation
    sailAngle := b.sailAngle
    heelAngle := b.heelAngle
    cursor := b.current_index }

/-- Spec section 4.5, formalised from its words: compute the Euclidean
distance from the current position to the next sample position; if it is
below the 0.5 unit threshold, or the fixed interpolation speed of 5 units per
second times the step duration meets or exceeds it, snap to next (position,
rotation, sailAngle and heelAngle when present) and advance the cursor;
otherwise move the position by the unit vector toward next scaled by speed
times stepSeconds, while rotation, sailAngle and heelAngle (when present) are
set directly to the next sample values. -/
noncomputable def interpolationSpecStep (o : ObsBoat) (next : Movement) :
    ObsBoat :=
  let speed : ℝ := 5
  let stepSeconds : ℝ := 0.1
  let d := Real.sqrt ((next.position.x - o.position.x) ^ 2 +
                     (next.position.y - o.position.y) ^ 2 +
                     (next.position.z - o.position.z) ^ 2)
  if d < 0.5 ∨ speed * stepSeconds ≥ d then
    { position := next.position
      rotation := next.rotation
      sailAngle := next.sailAngle.getD o.sailAngle
      heelAngle :=
        match next.heelAngle with
        | some h => some h
        | none => o.heelAngle
      cursor := o.cursor + 1 }
  else
    { position := ⟨o.position.x + (next.position.x - o.position.x) / d *
                     (speed * stepSeconds),
                   o.position.y + (next.position.y - o.position.y) / d *
                     (speed * stepSeconds),
                   o.position.z + (next.position.z - o.position.z) / d *
                     (speed * stepSeconds)⟩
      rotation := next.rotation
      sailAngle := next.sailAngle.getD o.sailAngle
      heelAngle :=
        match next.heelAngle with
        | some h => some h
        | none => o.heelAngle
      cursor := o.cursor }

/-! ## Session recording and persistence, server.py lines 94-153 and 546-566 -/

/-- One inbound boat_update as seen by the recording block of the handler:
the wall-clock time at which it is processed and the pose it carries. -/
structure PoseUpdate where
  time : ℝ
  position : Vec3
  rotation : Vec3
  sailAngle : Option ℝ
  heelAngle : Option ℝ

/-- The movement sample appended for one boat_update while recording is
enabled, handler lines 548-564: relative timestamp, position, rotation, and
sailAngle and heelAngle when the update carries them. -/
def recordMovement (startTime : ℝ) (u : PoseUpdate) : Movement :=
  { timestamp := u.time - startTime
    position := u.position
    rotation := u.rotation
    sailAngle := u.sailAngle
    heelAngle := u.heelAngle }

/-- The session buffer a client accumulates over a sequence of boat_update
messages while recording is enabled: one appended sample per update, in
arrival order. -/
def buildSession (startTime : ℝ) (updates : List PoseUpdate) : List Movement :=
  updates.map (recordMovement startTime)

/-- A persisted recording file, server.py lines 136-140. -/
structure RecordingFile where
  client_id : Nat
  timestamp : String
  movements : List Movement

/-- The recording files written when a client disconnects, unregister lines
98-106 together with save_recording lines 128-150: nothing unless recording
mode is on and the buffer is non-empty (the Python truthiness test at line
99), and a single file holding the whole buffer exactly when the buffer has
more than 30 samples. -/
def unregisterSave (record_sessions : Bool) (client_id : Nat) (ts : String)
    (recording : List Movement) : List RecordingFile :=
  if record_sessions then
    match recording with
    | [] => []
    | _ :: _ =>
        if recording.length > 30 then
          [{ client_id := client_id, timestamp := ts, movements := recording }]
        else []
  else []

/-! ## Spawn scheduler, server.py lines 330-375 -/

/-- An entry of the ai_boats dictionary: either a recorded boat or a linear
boat, matching the type tag at lines 282 and 320. -/
inductive AiBoat where
  | recorded (b : RecordedBoat)
  | linear (b : LinearBoat)

/-- The state the spawn scheduler reads and writes: the recorded_paths list
(each entry abstracted to its movements), the recording-mode flag, the
round-robin cursor and the ai_boats mapping. -/
structure SpawnState where
  recorded_paths : List (List Movement)
  record_sessions : Bool
  current_recording_index : Nat
  ai_boats : List (String × AiBoat)

/-- The body of one firing of spawn_boats_over_time, server.py lines 343-371:
nothing happens unless recordings exist and recording mode is off; otherwise
the round-robin cursor selects a recording (resetting to 0 when past the end)
and is advanced, and if ai_boats is below the target of 3 a new recorded boat
is created from the selected recording and broadcast.  The uuid-based id and
the random color of the new boat are supplied as arguments. -/
def spawn_tick (newId color : String) (s : SpawnState) :
    SpawnState × List ServerMsg :=
  match s.recorded_paths with
  | [] => (s, [])
  | _ :: _ =>
      if s.record_sessions then (s, [])
      else
        let idx := if s.current_recording_index ≥ s.recorded_paths.length
                   then 0 else s.current_recording_index
        let recording := (s.recorded_paths.get? idx).getD []
        let s1 := { s with current_recording_index := idx + 1 }
        if s1.ai_boats.length < 3 then
          match create_recorded_boat color recording with
          | some b =>
              ({ s1 with
                   ai_boats := s1.ai_boats ++ [(newId, AiBoat.recorded b)] },
               [ServerMsg.boat_update newId (boatDataOf recording b)])
          | none => (s1, [])
        else (s1, [])

/-- The recording index the cursor selects in a given state, lines 346-349. -/
def selIdx (s : SpawnState) : Nat :=
  if s.current_recording_index ≥ s.recorded_paths.length then 0
  else s.current_recording_index

/-- The scheduler state at the start of the k-th firing.  Between firings the
simulation loop may retire boats and clients come and go, so the ai_boats set
seen at firing k is an arbitrary function of k; recorded_paths and the cursor
are touched by no other task while the scheduler is active (recordings are
only appended in recording mode, in which the scheduler never acts), so they
evolve through spawn_tick alone. -/
def firingState (paths : List (List Movement))
    (boats : Nat → List (String × AiBoat)) (ids colors : Nat → String) :
    Nat → SpawnState
  | 0 => { recorded_paths := paths
           record_sessions := false
           current_recording_index := 0
           ai_boats := boats 0 }
  | k + 1 =>
      let s := firingState paths boats ids colors k
      let r := (spawn_tick (ids k) (colors k) s).1
      { r with ai_boats := boats (k + 1) }

/-- Iterated firings of the scheduler from an arbitrary state, collecting all
broadcasts; used for the recording-mode claim. -/
def spawnRun (ids colors : Nat → String) (s : SpawnState) :
    Nat → SpawnState × List ServerMsg
  | 0 => (s, [])
  | k + 1 =>
      let r := spawnRun ids colors s k
      let t := spawn_tick (ids k) (colors k) r.1
      (t.1, r.2 ++ t.2)

/-! ## Message dispatch, server.py lines 529-617

The handler decodes each inbound frame with json.loads and dispatches on the
type field inside a try block whose except clauses (lines 607-610) catch
exactly json.JSONDecodeError and KeyError; any other exception escapes the
async-for loop and ends the connection.  JSON numbers are modelled as
rationals here so the dispatch logic stays decidable. -/

/-- A decoded JSON value. -/
inductive Json where
  | null
  | bool (b : Bool)
  | num (v : ℚ)
  | str (s : String)
  | arr (items : List Json)
  | obj (fields : List (String × Json))

/-- The two exception kinds the dispatch code can raise on malformed
payloads after a successful parse. -/
inductive PyErr where
  | keyError
  | typeError
deriving DecidableEq

/-- Python subscription j[key] with a string key: field lookup on a dict,
KeyError when the key is missing, TypeError on every non-dict value. -/
def Json.index (j : Json) (key : String) : Except PyErr Json :=
  match j with
  | Json.obj fields =>
      match fields.lookup key with
      | some v => Except.ok v
      | none => Except.error PyErr.keyError
  | _ => Except.error PyErr.typeError

/-- Python equality test of a value against a string literal: true only for
the equal string, false for every other value (never an error). -/
def Json.isStr (j : Json) (s : String) : Bool :=
  match j with
  | Json.str t => t = s
  | _ => false

/-- Whether the value is a JSON object. -/
def Json.isObj (j : Json) : Bool :=
  match j with
  | Json.obj _ => true
  | _ => false

/-- Python truthiness of a decoded JSON value. -/
def Json.truthy (j : Json) : Bool :=
  match j with
  | Json.null => false
  | Json.bool b => b
  | Json.num v => v ≠ 0
  | Json.str s => s ≠ ""
  | Json.arr items => !items.isEmpty
  | Json.obj fields => !fields.isEmpty

/-- Python membership key in j: key lookup on a dict, substring test on a
string, element equality on a list, TypeError on the remaining values. -/
def Json.hasKeyOp (j : Json) (key : String) : Except PyErr Bool :=
  match j with
  | Json.obj fields => Except.ok (fields.lookup key).isSome
  | Json.str s => Except.ok ((s.splitOn key).length > 1)
  | Json.arr items => Except.ok (items.any (fun x => x.isStr key))
  | _ => Except.error PyErr.typeError

/-- Python dict assignment d[key] = v on a dict: replaces the value in place
when the key exists, appends it otherwise. -/
def updateAssoc : List (String × Json) → String → Json → List (String × Json)
  | [], k, v => [(k, v)]
  | (k0, v0) :: rest, k, v =>
      if k0 = k then (k0, v) :: rest else (k0, v0) :: updateAssoc rest k v

/-- Python item assignment j[key] = v. -/
def Json.setKey (j : Json) (key : String) (v : Json) : Except PyErr Json :=
  match j with
  | Json.obj fields => Except.ok (Json.obj (updateAssoc fields key v))
  | _ => Except.error PyErr.typeError

/-- Model of update_player_position_list, server.py lines 188-202: walk the
stored boat_data of every client (absent poses are the None initialised at
registration, which is falsy) and collect the position of every truthy entry
that passes the membership test; a non-dict truthy entry raises TypeError
either at the membership test or at the subscription that follows it. -/
def collectPositions : List (Option Json) → Except PyErr (List Json)
  | [] => Except.ok []
  | none :: rest => collectPositions rest
  | some bd :: rest =>
      if bd.truthy then
        match bd.hasKeyOp "position" with
        | Except.error e => Except.error e
        | Except.ok true =>
            match bd.index "position" with
            | Except.error e => Except.error e
            | Except.ok p =>
                match collectPositions rest with
                | Except.error e => Except.error e
                | Except.ok ps => Except.ok (p :: ps)
        | Except.ok false => collectPositions rest
      else collectPositions rest

/-- Fate of one inbound frame: processed normally, dropped by one of the two
except clauses with the dispatch loop moving on to the next message, or fatal
because an exception caught by neither clause escaped the loop and closed the
connection. -/
inductive MsgOutcome where
  | processed
  | dropped
  | fatal
deriving DecidableEq

/-- Model of the per-message body of handler, server.py lines 537-610, for
one sender.  decoded is none when json.loads failed.  senderBoatData is the
stored boat_data of the sender before the message, othersBoatData those of
the other registered clients (both as last stored, None right after
registration).  The debug_boats flag is the constant False of line 50, so the
debug branch at lines 569-571 is never entered; the recording key test at
line 547 is equivalent to the recording flag because register always creates
the key; outbound sends are taken to succeed here (delivery failures are the
business of the broadcast model above).  Returns the fate of the message and
the boat_data stored for the sender afterwards. -/
def processMessage (record_sessions : Bool) (decoded : Option Json)
    (senderBoatData : Option Json) (othersBoatData : List (Option Json)) :
    MsgOutcome × Option Json :=
  match decoded with
  | none => (MsgOutcome.dropped, senderBoatData)
  | some data =>
      match data.index "type" with
      | Except.error PyErr.typeError => (MsgOutcome.fatal, senderBoatData)
      | Except.error PyErr.keyError => (MsgOutcome.dropped, senderBoatData)
      | Except.ok t =>
          if t.isStr "boat_update" then
            match data.index "boat_data" with
            | Except.error PyErr.typeError => (MsgOutcome.fatal, senderBoatData)
            | Except.error PyErr.keyError => (MsgOutcome.dropped, senderBoatData)
            | Except.ok bd =>
                let stored := some bd
                let recResult : Except PyErr Unit :=
                  if record_sessions then
                    match bd.index "position" with
                    | Except.error e => Except.error e
                    | Except.ok _ =>
                        match bd.index "rotation" with
                        | Except.error e => Except.error e
                        | Except.ok _ => Except.ok ()
                  else Except.ok ()
                match recResult with
                | Except.error PyErr.typeError => (MsgOutcome.fatal, stored)
                | Except.error PyErr.keyError => (MsgOutcome.dropped, stored)
                | Except.ok _ =>
                    match collectPositions (othersBoatData ++ [stored]) with
                    | Except.error _ => (MsgOutcome.fatal, stored)
                    | Except.ok _ => (MsgOutcome.processed, stored)
          else if t.isStr "flag_update" then
            let flag :=
              match data with
              | Json.obj fields => (fields.lookup "flag_code").getD (Json.str "")
              | _ => Json.str ""
            match senderBoatData with
            | some bd =>
                if bd.truthy then
                  match bd.setKey "flag" flag with
                  | Except.error _ => (MsgOutcome.fatal, senderBoatData)
                  | Except.ok bd2 => (MsgOutcome.processed, some bd2)
                else (MsgOutcome.processed, senderBoatData)
            | none => (MsgOutcome.processed, senderBoatData)
          else (MsgOutcome.processed, senderBoatData)

/-! ## Iterated simulation of one recorded boat -/

/-- Iterated 100 ms ticks of update_ai_boats for one recorded boat,
instrumented with the number of cursor-advancing steps taken so far and the
accumulated broadcasts.  A removed boat stays removed and produces nothing
further. -/
noncomputable def runRecorded (ai_id : String) (m : List Movement)
    (b : RecordedBoat) :
    Nat → List Movement × Option RecordedBoat × Nat × List ServerMsg
  | 0 => (m, some b, 0, [])
  | k + 1 =>
      match runRecorded ai_id m b k with
      | (m', none, c, msgs) => (m', none, c, msgs)
      | (m', some b', c, msgs) =>
          match recordedTick ai_id m' b' with
          | (m'', none, newMsgs) => (m'', none, c, msgs ++ newMsgs)
          | (m'', some b'', newMsgs) =>
              (m'', some b'',
               c + (if b''.current_index = b'.current_index + 1 then 1 else 0),
               msgs ++ newMsgs)

end Sail

namespace Sail

/-! ## Theorems for the claims -/

/-- C1: at the failing input, a registry of client 1 whose send succeeds and
client 2 whose send raises, broadcast_to_all still completes the send to
client 1 and leaves both registry entries in place, but the call does not
return normally: gather without return_exceptions re-raises the failing send
to the caller of the broadcast, contradicting the claim that a send failure
never propagates to the caller as an error. -/
theorem broadcast_failure_propagates :
    (broadcast_to_all [(1, true), (2, false)]).delivered = [1] ∧
    (broadcast_to_all [(1, true), (2, false)]).registry =
      [(1, true), (2, false)] ∧
    (broadcast_to_all [(1, true), (2, false)]).outcome = Except.error 2 :=
  ⟨rfl, rfl, rfl⟩

/-- C6: one linear tick moves the position by direction times speed times the
0.1 s step and adds speed times step to the accumulated distance, which never
decreases while below max_distance given a nonnegative speed; in the tick in
which the accumulated distance reaches max_distance the position is reset to
the start position and the distance counter to 0. -/
theorem linear_step_correct (b : LinearBoat) (hs : 0 ≤ b.speed) :
    (b.distance + b.speed * 0.1 < b.max_distance →
       (linearStep b).pos.x = b.pos.x + b.direction_x * b.speed * 0.1 ∧
       (linearStep b).pos.z = b.pos.z + b.direction_z * b.speed * 0.1 ∧
       (linearStep b).pos.y = b.pos.y ∧
       (linearStep b).distance = b.distance + b.speed * 0.1 ∧
       b.distance ≤ (linearStep b).distance) ∧
    (b.distance + b.speed * 0.1 ≥ b.max_distance →
       (linearStep b).pos.x = b.start_x ∧
       (linearStep b).pos.z = b.start_z ∧
       (linearStep b).pos.y = b.pos.y ∧
       (linearStep b).distance = 0) := by
  unfold linearStep
  constructor
  · intro h
    rw [if_neg (not_le.mpr h)]
    refine ⟨rfl, rfl, rfl, rfl, ?_⟩
    have h01 : (0 : ℝ) ≤ 0.1 := by norm_num
    have := mul_nonneg hs h01
    simp only
    linarith
  · intro h
    rw [if_pos h]
    exact ⟨rfl, rfl, rfl, rfl⟩

/-- Concrete linear boat used to witness the linear step theorem. -/
def lbW : LinearBoat :=
  { pos := ⟨0, 0, 0⟩
    direction_x := 1
    direction_z := 0
    speed := 2
    start_x := 5
    start_z := 6
    distance := 0
    max_distance := 600 }

/-- Witness for the linear step theorem at a concrete boat with speed 2. -/
theorem linear_step_correct_witness :
    0 ≤ lbW.speed ∧
    ((lbW.distance + lbW.speed * 0.1 < lbW.max_distance →
        (linearStep lbW).pos.x = lbW.pos.x + lbW.direction_x * lbW.speed * 0.1 ∧
        (linearStep lbW).pos.z = lbW.pos.z + lbW.direction_z * lbW.speed * 0.1 ∧
        (linearStep lbW).pos.y = lbW.pos.y ∧
        (linearStep lbW).distance = lbW.distance + lbW.speed * 0.1 ∧
        lbW.distance ≤ (linearStep lbW).distance) ∧
     (lbW.distance + lbW.speed * 0.1 ≥ lbW.max_distance →
        (linearStep lbW).pos.x = lbW.start_x ∧
        (linearStep lbW).pos.z = lbW.start_z ∧
        (linearStep lbW).pos.y = lbW.pos.y ∧
        (linearStep lbW).distance = 0)) :=
  ⟨zero_le_two, linear_step_correct lbW zero_le_two⟩

/-- C5: on disconnect in recording mode a session buffer of more than 30
samples is persisted as exactly one file holding the whole buffer in capture
order, and its relative timestamps are non-decreasing whenever the processing
times of the updates were non-decreasing; a buffer of at most 30 samples
writes no file. -/
theorem session_save_threshold (cid : Nat) (ts : String) (startTime : ℝ)
    (updates : List PoseUpdate)
    (hmono : List.Chain' (· ≤ ·) (updates.map PoseUpdate.time)) :
    (30 < (buildSession startTime updates).length →
       unregisterSave true cid ts (buildSession startTime updates) =
         [{ client_id := cid, timestamp := ts,
            movements := buildSession startTime updates }] ∧
       List.Chain' (· ≤ ·)
         ((buildSession startTime updates).map Movement.timestamp)) ∧
    ((buildSession startTime updates).length ≤ 30 →
       unregisterSave true cid ts (buildSession startTime updates) = []) := by
  have hkey : List.Chain' (· ≤ ·)
      ((buildSession startTime updates).map Movement.timestamp) := by
    have h1 := (List.chain'_map PoseUpdate.time).mp hmono
    have h2 : List.Chain'
        (fun a b : PoseUpdate => a.time - startTime ≤ b.time - startTime)
        updates := h1.imp (fun _ _ hab => sub_le_sub_right hab startTime)
    have h3 := (List.chain'_map
      (fun u : PoseUpdate => u.time - startTime)).mpr h2
    simpa [buildSession, List.map_map, Function.comp, recordMovement] using h3
  constructor
  · intro h
    refine ⟨?_, hkey⟩
    cases hb : buildSession startTime updates with
    | nil => rw [hb] at h; simp at h
    | cons a l =>
        rw [hb] at h
        simp only [List.length_cons] at h
        simp [unregisterSave, hb]
        omega
  · intro h
    cases hb : buildSession startTime updates with
    | nil => simp [unregisterSave]
    | cons a l =>
        rw [hb] at h
        simp only [List.length_cons] at h
        simp [unregisterSave, hb]
        omega

/-- Witness for the session threshold theorem at the empty update list. -/
theorem session_save_threshold_witness :
    List.Chain' (· ≤ ·) (([] : List PoseUpdate).map PoseUpdate.time) ∧
    ((30 < (buildSession 0 ([] : List PoseUpdate)).length →
        unregisterSave true 7 "t" (buildSession 0 ([] : List PoseUpdate)) =
          [{ client_id := 7, timestamp := "t",
             movements := buildSession 0 ([] : List PoseUpdate) }] ∧
        List.Chain' (· ≤ ·)
          ((buildSession 0 ([] : List PoseUpdate)).map Movement.timestamp)) ∧
     ((buildSession 0 ([] : List PoseUpdate)).length ≤ 30 →
        unregisterSave true 7 "t" (buildSession 0 ([] : List PoseUpdate)) =
          [])) :=
  ⟨List.chain'_nil, session_save_threshold 7 "t" 0 [] List.chain'_nil⟩

/-- C10: with recording mode enabled at process start the spawn scheduler
never acts: any number of firings leaves its state unchanged and broadcasts
nothing, so the scheduler never creates an AI entity and recorded boats can
only come from the startup initialisation in create_ai_boats. -/
theorem recording_mode_never_spawns (ids colors : Nat → String)
    (s : SpawnState) (hrec : s.record_sessions = true) (k : Nat) :
    spawnRun ids colors s k = (s, []) := by
  induction k with
  | zero => rfl
  | succ n ih =>
      have hstep : spawn_tick (ids n) (colors n) s = (s, []) := by
        unfold spawn_tick
        cases hp : s.recorded_paths with
        | nil => rfl
        | cons a l => simp [hrec]
      simp [spawnRun, ih, hstep]

/-- Concrete scheduler state used to witness the recording-mode theorem. -/
def spawnW : SpawnState :=
  { recorded_paths := [[{ timestamp := 0, position := ⟨0, 0, 0⟩,
                          rotation := ⟨0, 0, 0⟩, sailAngle := none,
                          heelAngle := none }]]
    record_sessions := true
    current_recording_index := 0
    ai_boats := [] }

/-- Witness for the recording-mode theorem: five firings with a recording
available change nothing. -/
theorem recording_mode_never_spawns_witness :
    spawnW.record_sessions = true ∧
    spawnRun (fun _ => "id") (fun _ => "c") spawnW 5 = (spawnW, []) :=
  ⟨rfl, recording_mode_never_spawns (fun _ => "id") (fun _ => "c") spawnW rfl 5⟩

/-- A scheduler state with recordings present and recording mode off, the
configuration in which spawn_boats_over_time acts. -/
def mkSpawnState (paths : List (List Movement)) (cursor : Nat)
    (boats : List (String × AiBoat)) : SpawnState :=
  { recorded_paths := paths
    record_sessions := false
    current_recording_index := cursor
    ai_boats := boats }

/-- A movement sample at the origin, used for concrete scheduler states. -/
def mvW : Movement :=
  { timestamp := 0
    position := ⟨0, 0, 0⟩
    rotation := ⟨0, 0, 0⟩
    sailAngle := none
    heelAngle := none }

/-- The recorded boat created from a recording starting with mvW. -/
def rbW : RecordedBoat :=
  { posRef := PosRef.own ⟨0, 0, 0⟩
    rotation := ⟨0, 0, 0⟩
    sailAngle := 0
    heelAngle := none
    name := "Recorded Pirate"
    color := "c"
    speed := 0
    flag := "pirate"
    current_index := 0
    loop := false }

/-- C3 counterexample: a firing of the scheduler in a state with exactly one
AI entity removes nothing — the pre-existing boat b0 is still registered
afterwards (a new boat is appended next to it) and no removal of any kind is
broadcast, contradicting the claim that the single oldest entity is removed
on every firing. -/
theorem spawn_does_not_remove_oldest :
    ((spawn_tick "b1" "c"
        (mkSpawnState [[mvW]] 0 [("b0", AiBoat.recorded rbW)])).1.ai_boats.map
      Prod.fst = ["b0", "b1"]) ∧
    (∀ msg ∈ (spawn_tick "b1" "c"
        (mkSpawnState [[mvW]] 0 [("b0", AiBoat.recorded rbW)])).2,
      ∀ cid, msg ≠ ServerMsg.boat_disconnected cid) := by
  constructor
  · rfl
  · intro msg hm cid
    simp [spawn_tick, mkSpawnState, mvW, create_recorded_boat] at hm
    subst hm
    simp

/-- C3 as amended: a firing of the scheduler with recordings available,
recording mode off, the entity count below the cap of 3 and a non-empty
recording under the cursor removes no entity at all (every existing entry is
preserved), advances the round-robin cursor past the selected index, appends
exactly one new boat created from the selected recording, and broadcasts only
that creation; removal of the oldest entity never happens and no removal is
ever broadcast by the scheduler. -/
theorem spawn_tick_behavior (newId color : String) (paths : List (List Movement))
    (cursor : Nat) (boats : List (String × AiBoat))
    (h1 : paths ≠ [])
    (h3 : boats.length < 3)
    (mv : Movement) (rest : List Movement)
    (hr : (paths.get? (selIdx (mkSpawnState paths cursor boats))).getD [] =
      mv :: rest) :
    ∃ b, create_recorded_boat color (mv :: rest) = some b ∧
      spawn_tick newId color (mkSpawnState paths cursor boats) =
        (mkSpawnState paths (selIdx (mkSpawnState paths cursor boats) + 1)
           (boats ++ [(newId, AiBoat.recorded b)]),
         [ServerMsg.boat_update newId (boatDataOf (mv :: rest) b)]) ∧
      (∀ e ∈ boats,
        e ∈ (spawn_tick newId color (mkSpawnState paths cursor boats)).1.ai_boats) := by
  rcases paths with _ | ⟨p0, ps⟩
  · exact absurd rfl h1
  · refine ⟨_, rfl, ?_⟩
    have hst : spawn_tick newId color (mkSpawnState (p0 :: ps) cursor boats) =
        (mkSpawnState (p0 :: ps)
           (selIdx (mkSpawnState (p0 :: ps) cursor boats) + 1)
           (boats ++ [(newId, AiBoat.recorded
              { posRef := PosRef.own mv.position
                rotation := mv.rotation
                sailAngle := match mv.sailAngle with
                             | some s => s
                             | none => 0
                heelAngle := none
                name := "Recorded Pirate"
                color := color
                speed := 0
                flag := "pirate"
                current_index := 0
                loop := false })]),
         [ServerMsg.boat_update newId (boatDataOf (mv :: rest)
            { posRef := PosRef.own mv.position
              rotation := mv.rotation
              sailAngle := match mv.sailAngle with
                           | some s => s
                           | none => 0
              heelAngle := none
              name := "Recorded Pirate"
              color := color
              speed := 0
              flag := "pirate"
              current_index := 0
              loop := false })]) := by
      simp only [spawn_tick, mkSpawnState, selIdx] at hr ⊢
      rw [hr]
      simp [create_recorded_boat, h3]
    refine ⟨?_, ?_⟩
    · rw [hst]
    · intro e he
      rw [hst]
      exact List.mem_append_left _ he

/-- Witness for the amended scheduler theorem: one firing from a state with
one single-sample recording, cursor 0 and no boats. -/
theorem spawn_tick_behavior_witness :
    ([[mvW]] : List (List Movement)) ≠ [] ∧
    ([] : List (String × AiBoat)).length < 3 ∧
    (([[mvW]].get? (selIdx (mkSpawnState [[mvW]] 0 []))).getD [] = mvW :: []) ∧
    (∃ b, create_recorded_boat "c" (mvW :: []) = some b ∧
      spawn_tick "b1" "c" (mkSpawnState [[mvW]] 0 []) =
        (mkSpawnState [[mvW]] (selIdx (mkSpawnState [[mvW]] 0 []) + 1)
           ([] ++ [("b1", AiBoat.recorded b)]),
         [ServerMsg.boat_update "b1" (boatDataOf (mvW :: []) b)]) ∧
      (∀ e ∈ ([] : List (String × AiBoat)),
        e ∈ (spawn_tick "b1" "c" (mkSpawnState [[mvW]] 0 [])).1.ai_boats)) :=
  ⟨List.cons_ne_nil _ _, by decide, rfl,
   spawn_tick_behavior "b1" "c" [[mvW]] 0 [] (List.cons_ne_nil _ _) (by decide)
     mvW [] rfl⟩

/-- Projections of one scheduler firing in spawning configuration: paths and
mode are untouched and the cursor always lands one past the selected
recording index, whether or not a boat was created. -/
theorem spawn_tick_meta (newId color : String) (p0 : List Movement)
    (ps : List (List Movement)) (cursor : Nat)
    (boats : List (String × AiBoat)) :
    (spawn_tick newId color (mkSpawnState (p0 :: ps) cursor boats)).1.recorded_paths
        = p0 :: ps ∧
    (spawn_tick newId color (mkSpawnState (p0 :: ps) cursor boats)).1.record_sessions
        = false ∧
    (spawn_tick newId color
        (mkSpawnState (p0 :: ps) cursor boats)).1.current_recording_index
      = selIdx (mkSpawnState (p0 :: ps) cursor boats) + 1 := by
  simp only [spawn_tick, mkSpawnState, selIdx, Bool.false_eq_true, if_false]
  split
  · split <;> exact ⟨rfl, rfl, rfl⟩
  · exact ⟨rfl, rfl, rfl⟩

/-- A spawn state with the spawning configuration fields pinned is literally
a mkSpawnState. -/
theorem spawnState_shape {P : List (List Movement)} (s : SpawnState)
    (h1 : s.recorded_paths = P) (h2 : s.record_sessions = false) :
    s = mkSpawnState P s.current_recording_index s.ai_boats := by
  cases s
  simp_all [mkSpawnState]

/-- The boat set the scheduler sees at firing k is exactly the interference
function at k. -/
theorem firingState_ai_boats (paths : List (List Movement))
    (boats : Nat → List (String × AiBoat)) (ids colors : Nat → String)
    (k : Nat) :
    (firingState paths boats ids colors k).ai_boats = boats k := by
  cases k <;> rfl

/-- Invariant of the firing sequence: paths and mode never change, the cursor
never runs past the list length, and the index selected at firing k is
exactly k modulo the number of recordings. -/
theorem firing_invariant (p0 : List Movement) (ps : List (List Movement))
    (boats : Nat → List (String × AiBoat)) (ids colors : Nat → String)
    (k : Nat) :
    (firingState (p0 :: ps) boats ids colors k).recorded_paths = p0 :: ps ∧
    (firingState (p0 :: ps) boats ids colors k).record_sessions = false ∧
    (firingState (p0 :: ps) boats ids colors k).current_recording_index ≤
      (p0 :: ps).length ∧
    selIdx (firingState (p0 :: ps) boats ids colors k) =
      k % (p0 :: ps).length := by
  have hlen : 0 < (p0 :: ps).length := by simp
  induction k with
  | zero =>
      refine ⟨rfl, rfl, Nat.zero_le _, ?_⟩
      simp [selIdx, firingState, Nat.not_le.mpr hlen]
  | succ n ih =>
      obtain ⟨hp, hrs, hle, hsel⟩ := ih
      have hshape := spawnState_shape (firingState (p0 :: ps) boats ids colors n)
        hp hrs
      have hmeta := spawn_tick_meta (ids n) (colors n) p0 ps
        (firingState (p0 :: ps) boats ids colors n).current_recording_index
        (firingState (p0 :: ps) boats ids colors n).ai_boats
      have hstep : firingState (p0 :: ps) boats ids colors (n + 1) =
          { (spawn_tick (ids n) (colors n)
              (firingState (p0 :: ps) boats ids colors n)).1 with
            ai_boats := boats (n + 1) } := rfl
      have hmod : n % (p0 :: ps).length < (p0 :: ps).length :=
        Nat.mod_lt _ hlen
      have hcur : (firingState (p0 :: ps) boats ids colors (n + 1)).current_recording_index
          = n % (p0 :: ps).length + 1 := by
        rw [hstep]
        show (spawn_tick (ids n) (colors n)
            (firingState (p0 :: ps) boats ids colors n)).1.current_recording_index
          = n % (p0 :: ps).length + 1
        rw [hshape, hmeta.2.2, ← congrArg selIdx hshape, hsel]
      have hpaths : (firingState (p0 :: ps) boats ids colors (n + 1)).recorded_paths
          = p0 :: ps := by
        rw [hstep]
        show (spawn_tick (ids n) (colors n)
            (firingState (p0 :: ps) boats ids colors n)).1.recorded_paths = p0 :: ps
        rw [hshape, hmeta.1]
      have hmode : (firingState (p0 :: ps) boats ids colors (n + 1)).record_sessions
          = false := by
        rw [hstep]
        show (spawn_tick (ids n) (colors n)
            (firingState (p0 :: ps) boats ids colors n)).1.record_sessions = false
        rw [hshape, hmeta.2.1]
      have hkey : (n + 1) % (p0 :: ps).length =
          (n % (p0 :: ps).length + 1) % (p0 :: ps).length := by
        conv_lhs => rw [← Nat.div_add_mod n (p0 :: ps).length]
        rw [Nat.add_assoc, Nat.mul_add_mod]
      refine ⟨hpaths, hmode, ?_, ?_⟩
      · rw [hcur]
        exact hmod
      · simp only [selIdx]
        rw [hpaths, hcur, hkey]
        rcases Nat.lt_or_ge (n % (p0 :: ps).length + 1) (p0 :: ps).length with
          hlt | hge
        · rw [if_neg (Nat.not_le.mpr hlt), Nat.mod_eq_of_lt hlt]
        · have heq : n % (p0 :: ps).length + 1 = (p0 :: ps).length := by omega
          rw [heq, if_pos le_rfl, Nat.mod_self]

/-- C9: across successive scheduler firings the recordings are consumed in
round-robin order — the index selected at firing k is k modulo the number of
recordings — and whenever the entity count at firing k is below the cap and
the selected recording is non-empty, the boat spawned and broadcast at firing
k is sourced from recording k mod L of the store, giving the cyclic order R1,
R2, R3, R1 and so on. -/
theorem round_robin_spawn_order (paths : List (List Movement))
    (boats : Nat → List (String × AiBoat)) (ids colors : Nat → String)
    (hne : paths ≠ []) (k : Nat) :
    selIdx (firingState paths boats ids colors k) = k % paths.length ∧
    (∀ mv rest, paths.get? (k % paths.length) = some (mv :: rest) →
      (boats k).length < 3 →
      ∃ b, create_recorded_boat (colors k) (mv :: rest) = some b ∧
        (spawn_tick (ids k) (colors k)
          (firingState paths boats ids colors k)).2 =
          [ServerMsg.boat_update (ids k) (boatDataOf (mv :: rest) b)]) := by
  rcases paths with _ | ⟨p0, ps⟩
  · exact absurd rfl hne
  obtain ⟨hp, hrs, hle, hsel⟩ := firing_invariant p0 ps boats ids colors k
  refine ⟨hsel, ?_⟩
  intro mv rest hget h3
  have hshape := spawnState_shape (firingState (p0 :: ps) boats ids colors k)
    hp hrs
  have hab := firingState_ai_boats (p0 :: ps) boats ids colors k
  have hr : ((p0 :: ps).get? (selIdx (mkSpawnState (p0 :: ps)
      (firingState (p0 :: ps) boats ids colors k).current_recording_index
      (firingState (p0 :: ps) boats ids colors k).ai_boats))).getD [] =
      mv :: rest := by
    rw [← hshape, hsel, hget]
    rfl
  have h3b : (firingState (p0 :: ps) boats ids colors k).ai_boats.length < 3 := by
    rw [hab]
    exact h3
  obtain ⟨b, hcb, hst, _⟩ := spawn_tick_behavior (ids k) (colors k) (p0 :: ps)
    (firingState (p0 :: ps) boats ids colors k).current_recording_index
    (firingState (p0 :: ps) boats ids colors k).ai_boats
    (List.cons_ne_nil _ _) h3b mv rest hr
  refine ⟨b, hcb, ?_⟩
  rw [hshape, hst]

/-- Witness for the round-robin theorem: three single-sample recordings, an
always-empty boat set, firing 4 selects recording 4 mod 3 = 1. -/
theorem round_robin_spawn_order_witness :
    ([[mvW], [mvW, mvW], [mvW, mvW, mvW]] : List (List Movement)) ≠ [] ∧
    (selIdx (firingState [[mvW], [mvW, mvW], [mvW, mvW, mvW]] (fun _ => [])
        (fun _ => "id") (fun _ => "c") 4) =
      4 % ([[mvW], [mvW, mvW], [mvW, mvW, mvW]] : List (List Movement)).length ∧
    (∀ mv rest,
      ([[mvW], [mvW, mvW], [mvW, mvW, mvW]] : List (List Movement)).get?
          (4 % ([[mvW], [mvW, mvW], [mvW, mvW, mvW]] : List (List Movement)).length)
        = some (mv :: rest) →
      ((fun _ => ([] : List (String × AiBoat))) 4).length < 3 →
      ∃ b, create_recorded_boat ((fun _ => "c") 4) (mv :: rest) = some b ∧
        (spawn_tick ((fun _ => "id") 4) ((fun _ => "c") 4)
          (firingState [[mvW], [mvW, mvW], [mvW, mvW, mvW]] (fun _ => [])
            (fun _ => "id") (fun _ => "c") 4)).2 =
          [ServerMsg.boat_update ((fun _ => "id") 4)
            (boatDataOf (mv :: rest) b)])) :=
  ⟨List.cons_ne_nil _ _,
   round_robin_spawn_order [[mvW], [mvW, mvW], [mvW, mvW, mvW]] (fun _ => [])
     (fun _ => "id") (fun _ => "c") (List.cons_ne_nil _ _) 4⟩

/-- C8 counterexample: the frame 5 is valid JSON with no type field (it is
not an object at all), yet its dispatch is fatal to the connection: the
subscription data of type raises a TypeError that neither except clause
catches, so the handler loop ends, contradicting the claim that no malformed
message is ever fatal. -/
theorem nonobject_json_is_fatal :
    (processMessage false (some (Json.num 5)) none []).1 = MsgOutcome.fatal :=
  rfl

/-- C8 as amended: a frame that fails JSON parsing is dropped; a JSON object
without a type field is dropped; a boat_update object without boat_data is
dropped — in each case by an except clause that leaves the connection open
and the loop running; but a decoded frame that is not a JSON object raises an
uncaught TypeError and is fatal to the connection. -/
theorem malformed_message_outcomes (rs : Bool) (sender : Option Json)
    (others : List (Option Json)) :
    ((processMessage rs none sender others).1 = MsgOutcome.dropped) ∧
    (∀ fields, fields.lookup "type" = none →
       (processMessage rs (some (Json.obj fields)) sender others).1 =
         MsgOutcome.dropped) ∧
    (∀ fields, fields.lookup "type" = some (Json.str "boat_update") →
       fields.lookup "boat_data" = none →
       (processMessage rs (some (Json.obj fields)) sender others).1 =
         MsgOutcome.dropped) ∧
    (∀ j : Json, j.isObj = false →
       (processMessage rs (some j) sender others).1 = MsgOutcome.fatal) := by
  refine ⟨rfl, ?_, ?_, ?_⟩
  · intro fields h
    simp [processMessage, Json.index, h]
  · intro fields h1 h2
    simp [processMessage, Json.index, h1, h2, Json.isStr]
  · intro j hj
    cases j <;> simp_all [processMessage, Json.index, Json.isObj]

/-- Witness for the malformed-message theorem at a concrete handler state. -/
theorem malformed_message_outcomes_witness :
    ((processMessage false none none []).1 = MsgOutcome.dropped) ∧
    (∀ fields, fields.lookup "type" = none →
       (processMessage false (some (Json.obj fields)) none []).1 =
         MsgOutcome.dropped) ∧
    (∀ fields, fields.lookup "type" = some (Json.str "boat_update") →
       fields.lookup "boat_data" = none →
       (processMessage false (some (Json.obj fields)) none []).1 =
         MsgOutcome.dropped) ∧
    (∀ j : Json, j.isObj = false →
       (processMessage false (some j) none []).1 = MsgOutcome.fatal) :=
  malformed_message_outcomes false none []

/-- Writing one sample position in place does not change the length of the
recording. -/
theorem length_setSamplePos (m : List Movement) (i : Nat) (p : Vec3) :
    (setSamplePos m i p).length = m.length := by
  unfold setSamplePos
  cases m.get? i <;> simp

/-- A non-looping recorded boat whose cursor has reached the last sample is
deleted by the tick, lines 391-402. -/
theorem recordedStep_retire (m : List Movement) (b : RecordedBoat)
    (hloop : b.loop = false) (hend : m.length - 1 ≤ b.current_index) :
    recordedStep m b = (m, none) := by
  unfold recordedStep
  rw [if_pos hend, hloop]
  simp

/-- A non-looping recorded boat strictly before the last sample survives the
tick; the recording keeps its length, the loop flag is unchanged, and the
cursor either advances by exactly one (snap) or stays (interpolating move). -/
theorem recordedStep_alive (m : List Movement) (b : RecordedBoat)
    (hloop : b.loop = false) (hmid : b.current_index < m.length - 1) :
    ∃ m' b', recordedStep m b = (m', some b') ∧
      m'.length = m.length ∧ b'.loop = false ∧
      (b'.current_index = b.current_index + 1 ∨
       b'.current_index = b.current_index) := by
  have hn : b.current_index + 1 < m.length := by omega
  have hcond : ¬(b.current_index + 1 ≥ m.length ∧ b.loop = true) := by
    rintro ⟨h1, _⟩
    omega
  unfold recordedStep
  rw [if_neg (Nat.not_le.mpr hmid)]
  simp only [recordedAdvance]
  rw [if_neg hcond, dif_pos hn]
  split
  · exact ⟨m, _, rfl, rfl, hloop, Or.inl rfl⟩
  · cases hpr : b.posRef with
    | own v => exact ⟨m, _, rfl, rfl, hloop, Or.inr rfl⟩
    | sample i =>
        exact ⟨_, _, rfl, length_setSamplePos _ _ _, hloop, Or.inr rfl⟩

/-- Invariant of the iterated recorded-boat simulation started fresh at
cursor 0 with looping off: the recording keeps its length, the advance count
equals the live cursor and never exceeds N-1, a removed boat was removed with
count exactly N-1, and no broadcast along the way is ever a
boat_disconnected. -/
theorem runRecorded_invariant (id : String) (m : List Movement)
    (b : RecordedBoat) (hloop : b.loop = false) (hidx : b.current_index = 0)
    (k : Nat) :
    (runRecorded id m b k).1.length = m.length ∧
    (∀ b', (runRecorded id m b k).2.1 = some b' →
        b'.loop = false ∧
        b'.current_index = (runRecorded id m b k).2.2.1 ∧
        (runRecorded id m b k).2.2.1 ≤ m.length - 1) ∧
    ((runRecorded id m b k).2.1 = none →
        (runRecorded id m b k).2.2.1 = m.length - 1) ∧
    (∀ msg ∈ (runRecorded id m b k).2.2.2, ∀ cid,
        msg ≠ ServerMsg.boat_disconnected cid) := by
  induction k with
  | zero =>
      refine ⟨rfl, ?_, ?_, ?_⟩
      · intro b' hb'
        obtain rfl : b = b' := Option.some.inj hb'
        exact ⟨hloop, hidx, Nat.zero_le _⟩
      · intro h
        cases h
      · intro msg hm
        cases hm
  | succ n ih =>
      obtain ⟨ih1, ih2, ih3, ih4⟩ := ih
      rcases hprev : runRecorded id m b n with ⟨m₁, ob, c, msgs⟩
      rw [hprev] at ih1 ih2 ih3 ih4
      simp only at ih1 ih2 ih3 ih4
      cases ob with
      | none =>
          have hrun : runRecorded id m b (n + 1) = (m₁, none, c, msgs) := by
            simp [runRecorded, hprev]
          rw [hrun]
          refine ⟨ih1, ?_, ?_, ih4⟩
          · intro b' hb'
            cases hb'
          · intro _
            exact ih3 rfl
      | some b₁ =>
          obtain ⟨hb₁loop, hb₁idx, hc⟩ := ih2 b₁ rfl
          rcases Nat.lt_or_ge c (m.length - 1) with hlt | hge
          · have hmid : b₁.current_index < m₁.length - 1 := by
              rw [hb₁idx, ih1]
              exact hlt
            obtain ⟨m₂, b₂, hstep, hlen₂, hloop₂, hidxor⟩ :=
              recordedStep_alive m₁ b₁ hb₁loop hmid
            have htick : recordedTick id m₁ b₁ =
                (m₂, some b₂,
                 [ServerMsg.boat_update id (boatDataOf m₂ b₂)]) := by
              simp [recordedTick, hstep]
            have hrun : runRecorded id m b (n + 1) =
                (m₂, some b₂,
                 c + (if b₂.current_index = b₁.current_index + 1 then 1 else 0),
                 msgs ++ [ServerMsg.boat_update id (boatDataOf m₂ b₂)]) := by
              simp [runRecorded, hprev, htick]
            rw [hrun]
            refine ⟨by rw [hlen₂, ih1], ?_, ?_, ?_⟩
            · intro b' hb'
              obtain rfl : b₂ = b' := Option.some.inj hb'
              rcases hidxor with hadv | hstay
              · rw [if_pos (by rw [hadv])]
                refine ⟨hloop₂, ?_, ?_⟩
                · rw [hadv, hb₁idx]
                · show c + 1 ≤ m.length - 1
                  omega
              · rw [if_neg (by rw [hstay, hb₁idx]; omega)]
                refine ⟨hloop₂, ?_, ?_⟩
                · rw [hstay, hb₁idx]
                  simp
                · show c + 0 ≤ m.length - 1
                  omega
            · intro h
              cases h
            · intro msg hm cid
              rcases List.mem_append.mp hm with hl | hr
              · exact ih4 msg hl cid
              · rcases List.mem_singleton.mp hr with rfl
                simp
          · have hend : m₁.length - 1 ≤ b₁.current_index := by
              rw [hb₁idx, ih1]
              exact hge
            have hstep := recordedStep_retire m₁ b₁ hb₁loop hend
            have htick : recordedTick id m₁ b₁ = (m₁, none, []) := by
              simp [recordedTick, hstep]
            have hrun : runRecorded id m b (n + 1) =
                (m₁, none, c, msgs ++ []) := by
              simp [runRecorded, hprev, htick]
            rw [hrun]
            refine ⟨ih1, ?_, ?_, ?_⟩
            · intro b' hb'
              cases hb'
            · intro _
              show c = m.length - 1
              omega
            · intro msg hm cid
              rw [List.append_nil] at hm
              exact ih4 msg hm cid

/-- C2 counterexample: a one-sample non-looping recording: the tick that
retires the boat deletes it from ai_boats and, because of the continue at
line 402, broadcasts nothing at all — in particular no boat_disconnected
names the entity, contradicting that conjunct of the claim. -/
theorem retirement_is_silent :
    (recordedTick "ai1" [mvW] rbW).2.1 = none ∧
    (recordedTick "ai1" [mvW] rbW).2.2 = [] :=
  ⟨rfl, rfl⟩

/-- C2 as amended: a recorded boat with N samples and looping disabled,
started at cursor 0, is retired silently — it is removed from the active set
after exactly N-1 cursor-advancing snap steps, never more, and nothing (in
particular no boat_disconnected) is broadcast for the removal: across the
whole run every broadcast is a boat_update. -/
theorem recorded_retirement_count (id : String) (m : List Movement)
    (b : RecordedBoat) (hloop : b.loop = false) (hidx : b.current_index = 0)
    (k : Nat) :
    (runRecorded id m b k).2.2.1 ≤ m.length - 1 ∧
    ((runRecorded id m b k).2.1 = none →
      (runRecorded id m b k).2.2.1 = m.length - 1) ∧
    (∀ msg ∈ (runRecorded id m b k).2.2.2, ∀ cid,
      msg ≠ ServerMsg.boat_disconnected cid) := by
  obtain ⟨h1, h2, h3, h4⟩ := runRecorded_invariant id m b hloop hidx k
  refine ⟨?_, h3, h4⟩
  cases hob : (runRecorded id m b k).2.1 with
  | none => exact le_of_eq (h3 hob)
  | some b' => exact (h2 b' hob).2.2

/-- Witness for the retirement-count theorem: three ticks of the one-sample
recording boat. -/
theorem recorded_retirement_count_witness :
    rbW.loop = false ∧ rbW.current_index = 0 ∧
    ((runRecorded "ai1" [mvW] rbW 3).2.2.1 ≤
       ([mvW] : List Movement).length - 1 ∧
     ((runRecorded "ai1" [mvW] rbW 3).2.1 = none →
       (runRecorded "ai1" [mvW] rbW 3).2.2.1 =
         ([mvW] : List Movement).length - 1) ∧
     (∀ msg ∈ (runRecorded "ai1" [mvW] rbW 3).2.2.2, ∀ cid,
       msg ≠ ServerMsg.boat_disconnected cid)) :=
  ⟨rfl, rfl, recorded_retirement_count "ai1" [mvW] rbW rfl rfl 3⟩

/-- Reading sample i right after writing its position in place yields the
written position. -/
theorem resolvePos_setSamplePos (m : List Movement) (i : Nat) (p : Vec3)
    (h : i < m.length) :
    resolvePos (PosRef.sample i) (setSamplePos m i p) = p := by
  unfold setSamplePos
  rcases hg : m.get? i with _ | mi
  · rw [List.get?_eq_get h] at hg
    cases hg
  · simp [resolvePos, List.getElem?_set_eq_of_lt _ h]

/-- C7: for a recorded boat with a next sample at cursor plus one, the
observable result of one tick of the source step is exactly the step the
specification describes: snap to the next sample (position, rotation,
sailAngle and heelAngle when present) with the cursor advancing when the
distance is under 0.5 units or covered by 5 units per second times the 0.1 s
step, and otherwise a move by the unit vector toward the next sample scaled
by speed times step while rotation and the optional angles are set directly
to the next sample values with the cursor unchanged. -/
theorem recorded_step_matches_spec (m : List Movement) (b : RecordedBoat)
    (h1 : b.current_index + 1 < m.length)
    (h2 : b.posRef.validFor m.length = true) :
    ∃ m' b', recordedStep m b = (m', some b') ∧
      observe m' b' =
        interpolationSpecStep (observe m b)
          (m.get ⟨b.current_index + 1, h1⟩) := by
  have hmid : b.current_index < m.length - 1 := by omega
  have hcond : ¬(b.current_index + 1 ≥ m.length ∧ b.loop = true) := by
    rintro ⟨hg, _⟩
    omega
  unfold recordedStep
  rw [if_neg (Nat.not_le.mpr hmid)]
  simp only [recordedAdvance]
  rw [if_neg hcond, dif_pos h1]
  unfold interpolationSpecStep
  simp only [observe]
  set cur := resolvePos b.posRef m with hcur
  split
  case isTrue h =>
    simp only [if_pos h]
    refine ⟨m, _, rfl, ?_⟩
    simp only [observe, ObsBoat.mk.injEq]
    refine ⟨?_, trivial, ?_, trivial, trivial⟩
    · simp [resolvePos, List.getElem?_eq_getElem h1]
    · cases m[b.current_index + 1].sailAngle <;> rfl
  case isFalse h =>
    simp only [if_neg h]
    rcases not_or.mp h with ⟨hlt, hge⟩
    have hDgt := lt_of_not_ge hge
    have hDpos := lt_of_le_of_lt (by norm_num : (0 : ℝ) ≤ 5 * 0.1) hDgt
    simp only [if_pos hDpos]
    cases hpr : b.posRef with
    | own v =>
        dsimp only
        refine ⟨m, _, rfl, ?_⟩
        simp only [observe, ObsBoat.mk.injEq, resolvePos]
        refine ⟨?_, trivial, ?_, trivial, trivial⟩
        · simp only [Vec3.mk.injEq]
          refine ⟨?_, ?_, ?_⟩ <;> ring
        · cases m[b.current_index + 1].sailAngle <;> rfl
    | sample i =>
        have hi : i < m.length := by
          rw [hpr] at h2
          exact of_decide_eq_true h2
        dsimp only
        refine ⟨_, _, rfl, ?_⟩
        simp only [observe, ObsBoat.mk.injEq]
        refine ⟨?_, trivial, ?_, trivial, trivial⟩
        · rw [resolvePos_setSamplePos _ _ _ hi]
          simp only [Vec3.mk.injEq]
          refine ⟨?_, ?_, ?_⟩ <;> ring
        · cases m[b.current_index + 1].sailAngle <;> rfl

/-- Witness for the interpolation refinement theorem at a two-sample
recording and a fresh boat. -/
theorem recorded_step_matches_spec_witness :
    rbW.current_index + 1 < ([mvW, mvW] : List Movement).length ∧
    rbW.posRef.validFor ([mvW, mvW] : List Movement).length = true ∧
    (∃ m' b', recordedStep [mvW, mvW] rbW = (m', some b') ∧
      observe m' b' =
        interpolationSpecStep (observe [mvW, mvW] rbW)
          ([mvW, mvW].get ⟨rbW.current_index + 1, by decide⟩)) :=
  ⟨by decide, rfl, recorded_step_matches_spec [mvW, mvW] rbW (by decide) rfl⟩

/-- A sample far from the origin, the target of the interpolating move in the
mutation scenario. -/
def mvFar : Movement :=
  { timestamp := 2
    position := ⟨10, 0, 0⟩
    rotation := ⟨0, 0, 0⟩
    sailAngle := none
    heelAngle := none }

/-- The failing-input recording for the mutation scenario: two samples at
the origin followed by one ten units away. -/
def mA : List Movement := [mvW, mvW, mvFar]

/-- The boat state after the first (snap) tick on mA: position aliased to
sample 1, cursor 1. -/
def rbA : RecordedBoat :=
  { rbW with posRef := PosRef.sample 1, current_index := 1 }

/-- C4: the stored recording is mutated by replay.  Tick one snaps the boat
to sample 1, making the boat position the same object as that sample
position; tick two interpolates toward sample 2 and its in-place update at
lines 454-456 writes through the alias: afterwards sample 1 of the recording
held by the store has position.x = 1/2 where the recording was persisted with
position.x = 0 — the sample sequence did not survive the simulation loop
unchanged. -/
theorem replay_mutates_recording :
    recordedStep mA rbW = (mA, some rbA) ∧
    recordedStep mA rbA = (setSamplePos mA 1 ⟨1 / 2, 0, 0⟩, some rbA) ∧
    (((setSamplePos mA 1 ⟨1 / 2, 0, 0⟩).get? 1).map fun mv => mv.position.x) =
      some (1 / 2) ∧
    ((mA.get? 1).map fun mv => mv.position.x) = some 0 ∧
    ((1 : ℝ) / 2 ≠ 0) := by
  refine ⟨?_, ?_, ?_, ?_, by norm_num⟩
  · norm_num [recordedStep, recordedAdvance, mA, rbW, rbA, mvW, mvFar,
      resolvePos]
  · have hs : Real.sqrt 100 = 10 := by
      rw [show (100 : ℝ) = 10 ^ 2 by norm_num, Real.sqrt_sq (by norm_num)]
    norm_num [recordedStep, recordedAdvance, mA, rbW, rbA, mvW, mvFar,
      resolvePos, setSamplePos, hs]
  · norm_num [setSamplePos, mA, mvW, mvFar]
  · norm_num [mA, mvW]

end Sail
